import Mathlib

/-!
Shallow embedding of the pushwrappers module
(src/pushwrappers/__init__.py) and proofs about its behaviour.

The module has three parts: a duration formatter sec_to_hms, two
decorators push_exceptions and push_success, and a PushContext context
manager that redirects sys.stdout and sys.stderr into in-memory sinks.
The Pushover client is an external collaborator; a call
po.Client().send_message(message, title=t) is modelled as appending a
Notification record to a list of sent notifications.
-/

namespace Pushwrappers

/-- Python exception value: class name, textual description (str of the
exception) and whether the class derives from Exception. The except
clause in push_exceptions matches only Exception instances;
system-exiting classes such as KeyboardInterrupt derive only from
BaseException and are not caught by it. -/
structure PyErr where
  ty : String
  msg : String
  isExceptionInstance : Bool
  deriving DecidableEq

/-- One notification handed to the Pushover client, recording the two
arguments of send_message(message, title=title). -/
structure Notification where
  message : String
  title : String
  deriving DecidableEq

/-- Python numeric value flowing through sec_to_hms: an int or a float.
Floats are modelled as rationals; the rounding of the underlying binary
floats is not modelled, which is harmless here because the formatting
below fails on the type of the value, not on its magnitude. -/
inductive PyNum where
  | int : Int → PyNum
  | float : Rat → PyNum
  deriving DecidableEq

def PyNum.toRat : PyNum → Rat
  | .int n => (n : Rat)
  | .float q => q

/-- Python divmod. For two ints it is floor division with the matching
remainder; if either operand is a float both results are floats.
ZeroDivisionError is not modelled: the only divisor the source uses
is 60. -/
def pyDivmod (a b : PyNum) : PyNum × PyNum :=
  match a, b with
  | .int x, .int y => (.int (Int.fdiv x y), .int (Int.fmod x y))
  | _, _ =>
    let x := a.toRat
    let y := b.toRat
    let q : Rat := ((⌊x / y⌋ : Int) : Rat)
    (.float q, .float (x - y * q))

/-- Error raised by CPython when a format precision is given for an
integer conversion of type d. CPython quotes parts of the message with
single quote characters; the quote characters are elided here. -/
def precision_not_allowed_int : PyErr :=
  ⟨"ValueError", "Precision not allowed in integer format specifier", true⟩

/-- Error raised by CPython when a float is formatted with conversion
type d. Quote characters of the original message are elided. -/
def unknown_format_code_d_float : PyErr :=
  ⟨"ValueError", "Unknown format code d for object of type float", true⟩

def zeros : Nat → String
  | 0 => ""
  | n + 1 => "0" ++ zeros n

/-- Zero-pad the decimal rendering of an integer to width 2, with the
padding inserted after the sign, as Python zero filling does. -/
def pad2 (n : Int) : String :=
  if n < 0 then
    let ds := toString (-n)
    "-" ++ zeros (1 - ds.length) ++ ds
  else
    let ds := toString n
    zeros (2 - ds.length) ++ ds

/-- Embedding of the first conversion of the format string in
sec_to_hms: no width, precision 02, type d. CPython rejects a precision
on an integer conversion with ValueError, and rejects conversion type d
outright for a float operand. -/
def format_dot02d : PyNum → Except PyErr String
  | .int _ => .error precision_not_allowed_int
  | .float _ => .error unknown_format_code_d_float

/-- Embedding of the second conversion: zero fill to width 2, type d.
Valid for ints, rejected for floats. -/
def format_02d : PyNum → Except PyErr String
  | .int n => .ok (pad2 n)
  | .float _ => .error unknown_format_code_d_float

/-- Round-half-to-even, the rounding CPython applies when formatting
with conversion type f. -/
def round_half_even (q : Rat) : Int :=
  let f : Int := ⌊q⌋
  let r : Rat := q - (f : Rat)
  if r < 1 / 2 then f
  else if 1 / 2 < r then f + 1
  else if f % 2 = 0 then f else f + 1

/-- Embedding of the third conversion: zero fill to width 2, precision
0, type f: round the value to a whole number and zero-pad. The display
of a negative zero is not modelled; the operand in the source is a
remainder modulo 60 taken from a nonnegative duration. -/
def format_02_0f : PyNum → Except PyErr String
  | .int n => .ok (pad2 n)
  | .float q => .ok (pad2 (round_half_even q))

/-- Embedding of sec_to_hms. The source computes
m, s = divmod(secs, 60) and h, m = divmod(m, 60) and then formats
(h, m, s) with a three-field format string whose conversions are
embedded above, processed left to right as CPython does, each able to
raise. -/
def sec_to_hms (secs : PyNum) : Except PyErr String := do
  let ms := pyDivmod secs (.int 60)
  let hm := pyDivmod ms.1 (.int 60)
  let hStr ← format_dot02d hm.1
  let mStr ← format_02d hm.2
  let sStr ← format_02_0f ms.2
  return hStr ++ ":" ++ mStr ++ ":" ++ sStr

/-!
Decorators. A wrapped callable is modelled by its behaviour
fn : α → Except PyErr ρ (a returned value or a raised exception).
Wall-clock reads by time.time() are modelled by passing the two clock
values the wrapper observes, and str of a timedelta built from a number
of seconds is an external collaborator modelled by a parameter
tdStr : Rat → String (the spec treats time formatting as glue).
-/

/-- Embedding of the wrapper ret_fn produced by push_exceptions. The
source runs fn inside try, and on an Exception instance e it formats
the elapsed timedelta, sends one notification whose message is str(e)
and whose title names the module and name of fn, then re-raises e.
Errors that are not Exception instances are not caught. The result is
the outcome of the call paired with the list of notifications sent. -/
def push_exceptions_ret_fn {α ρ : Type} (module name : String)
    (tdStr : Rat → String) (fn : α → Except PyErr ρ)
    (startTime failTime : Rat) (args : α) :
    Except PyErr ρ × List Notification :=
  match fn args with
  | .ok r => (.ok r, [])
  | .error e =>
    if e.isExceptionInstance then
      let exec_time := failTime - startTime
      let title :=
        "Error in " ++ module ++ ":" ++ name ++ " after " ++ tdStr exec_time
      let message := e.msg
      (.error e, [⟨message, title⟩])
    else
      (.error e, [])

/-- Embedding of the wrapper ret_fn produced by push_success. The
source line result = ret_fn(*args, **kwargs) invokes the wrapper
itself, so the recursion is embedded with an explicit fuel argument:
fuel 0 means the recursion has not bottomed out within that many
nested calls (in CPython the recursion only ever stops with
RecursionError). The second component counts applications of fn; the
body of the source wrapper contains no call of fn (only the attribute
reads fn.__module__ and fn.__name__ in the line that builds the
message), so no branch increments the counter. The third component is
the list of notifications sent. -/
def push_success_ret_fn {α ρ : Type} (module name : String)
    (tdStr : Rat → String) (fn : α → Except PyErr ρ)
    (startTime endTime : Rat) (args : α) :
    Nat → Option (Except PyErr ρ) × Nat × List Notification
  | 0 => (none, 0, [])
  | fuel + 1 =>
    match push_success_ret_fn module name tdStr fn startTime endTime args fuel with
    | (none, k, sent) => (none, k, sent)
    | (some (.error e), k, sent) => (some (.error e), k, sent)
    | (some (.ok r), k, sent) =>
      (some (.ok r), k,
        sent ++ [⟨"Completed " ++ module ++ ":" ++ name ++ " after "
                   ++ tdStr (endTime - startTime), "Success!"⟩])

/-!
PushContext. The process-wide state touched by the class is sys.stdout,
sys.stderr and the set of stream objects; streams are identified by
natural numbers and their accumulated text is a function from
identifiers to strings (file.write appends). Notifications sent so far
are carried in the same state record.
-/

/-- Process state seen by PushContext: the stream identifiers currently
installed as sys.stdout and sys.stderr, the text accumulated in every
stream object, a supply of fresh identifiers for new in-memory sinks,
and the notifications sent so far. -/
structure SysState where
  stdout : Nat
  stderr : Nat
  contents : Nat → String
  nextRef : Nat
  sent : List Notification

/-- Append text to a stream object, as file.write does on the streams
involved here. -/
def writeStream (w : SysState) (r : Nat) (s : String) : SysState :=
  { w with contents := fun x => if x = r then w.contents x ++ s else w.contents x }

/-- Fields of a PushContext instance after __enter__ has run. Before
__enter__ the source initialises every field to None and the empty
label; only post-entry instances are reachable by the claims below, so
the fields are carried without an Option wrapper. -/
structure PushContext where
  start_time : Rat
  block_label : String
  old_stdout : Nat
  old_stderr : Nat
  my_stdout : Nat
  my_stderr : Nat

/-- Embedding of the body of PushContext.__enter__: record the start
time and the label, save the current sys.stdout and sys.stderr, and
install two fresh empty in-memory sinks in their place. -/
def pushContext_enter (w : SysState) (block_label : String) (now : Rat) :
    PushContext × SysState :=
  let outRef := w.nextRef
  let errRef := w.nextRef + 1
  let ctx : PushContext :=
    ⟨now, block_label, w.stdout, w.stderr, outRef, errRef⟩
  let w1 : SysState :=
    { stdout := outRef
      stderr := errRef
      contents := fun x =>
        if x = outRef then "" else if x = errRef then "" else w.contents x
      nextRef := w.nextRef + 2
      sent := w.sent }
  (ctx, w1)

/-- Embedding of PushContext.get_status_message, as a function of the
values the two getvalue() calls read from the captured sinks. A
non-empty error sink is truthy, giving status failed with the error
text; otherwise the status is succeeded with the output text. -/
def get_status_message (my_stdout_val my_stderr_val : String) :
    String × String :=
  if my_stderr_val ≠ "" then ("failed", my_stderr_val)
  else ("succeeded", my_stdout_val)

/-- Embedding of the body of PushContext.__exit__: restore sys.stdout
and sys.stderr to the saved streams, compute the elapsed time (a
float), classify with get_status_message, write the message to the
restored error stream when the status is failed and to the restored
output stream otherwise, and finally send one notification whose title
interpolates the label, the status and sec_to_hms of the elapsed
float. Formatting the title is part of evaluating the send_message
call, so an error raised by sec_to_hms propagates out of __exit__ with
every earlier effect (restoration and the write) already performed:
the result is the state reached together with the error, if any, that
the method raises. -/
def pushContext_exit (ctx : PushContext) (now : Rat) (w : SysState) :
    SysState × Option PyErr :=
  let w1 : SysState := { w with stdout := ctx.old_stdout, stderr := ctx.old_stderr }
  let exectime : Rat := now - ctx.start_time
  let sm := get_status_message (w1.contents ctx.my_stdout) (w1.contents ctx.my_stderr)
  let w2 := if sm.1 = "failed" then writeStream w1 w1.stderr sm.2
            else writeStream w1 w1.stdout sm.2
  match sec_to_hms (.float exectime) with
  | .error e => (w2, some e)
  | .ok hms =>
    ({ w2 with sent := w2.sent ++
        [⟨sm.2, ctx.block_label ++ " " ++ sm.1 ++ " after " ++ hms⟩] }, none)

/-!
Use of PushContext as a context manager. The with statement calls
type(mgr).__enter__(mgr) — one positional argument — and, on exit,
type(mgr).__exit__(mgr, exc_type, exc_value, traceback) — four
positional arguments. Binding those argument lists against the
parameter lists the source declares, (self, block_label) for __enter__
and (self) for __exit__, is embedded below; a mismatch raises
TypeError, as a CPython call does before the method body runs.
-/

/-- TypeError raised when a required positional argument is missing.
CPython quotes the argument name with single quote characters; the
quote characters are elided here. -/
def missing_arg_type_error (fname argname : String) : PyErr :=
  ⟨"TypeError", fname ++ "() missing 1 required positional argument: " ++ argname, true⟩

/-- TypeError raised when a call passes more positional arguments than
the function declares. Pluralisation of the word argument is not
modelled. -/
def takes_n_type_error (fname : String) (declared given : Nat) : PyErr :=
  ⟨"TypeError", fname ++ "() takes " ++ toString declared
      ++ " positional argument but " ++ toString given ++ " were given", true⟩

/-- Binding of a positional argument list against the parameter list
(self, block_label) declared by PushContext.__enter__. On success the
value bound to block_label is returned; any other arity raises
TypeError. The with statement passes exactly one argument, the
manager itself. -/
def bind_enter_args : List String → Except PyErr String
  | [_slf, label] => .ok label
  | _ => .error (missing_arg_type_error "__enter__" "block_label")

/-- Binding of a positional argument list against the parameter list
(self) declared by PushContext.__exit__. The with statement passes
four arguments: the manager, the exception type, the exception value
and the traceback. -/
def bind_exit_args : (l : List String) → Except PyErr Unit
  | [_slf] => .ok ()
  | l => .error (takes_n_type_error "__exit__" 1 l.length)

/-- Embedding of executing a with statement over a fresh PushContext
instance: with PushContext(): body. The protocol first calls
type(mgr).__enter__(mgr); if that raises, the body never runs and
nothing further happens. Otherwise the body runs with the streams
redirected, and type(mgr).__exit__(mgr, exc_type, exc_value, tb) is
called whether or not the body raised; since the source __exit__
returns None, a body exception would propagate afterwards unless the
__exit__ call itself raises, in which case that error replaces it.
The body is modelled as a state transformer that may raise. The third
component of the result records whether the body was executed. -/
def pushContext_with (body : SysState → SysState × Option PyErr)
    (tEnter tExit : Rat) (w : SysState) :
    SysState × Option PyErr × Bool :=
  match bind_enter_args ["mgr"] with
  | .error e => (w, some e, false)
  | .ok label =>
    let (ctx, w1) := pushContext_enter w label tEnter
    let (w2, bodyErr) := body w1
    match bind_exit_args ["mgr", "excType", "excValue", "tb"] with
    | .error e2 => (w2, some e2, true)
    | .ok _ =>
      let (w3, exitErr) := pushContext_exit ctx tExit w2
      match exitErr with
      | some e3 => (w3, some e3, true)
      | none => (w3, bodyErr, true)

/-!
Theorems.
-/

/-- Claim C1: the claim states that sec_to_hms maps 0, 59, 60, 3599,
3600 and 86399 seconds to the strings 00:00:00, 00:00:59, 00:01:00,
00:59:59, 01:00:00 and 23:59:59. The code instead raises ValueError on
every one of these inputs: the first conversion of its format string
carries a precision together with integer conversion type d, which
CPython rejects before any field is rendered. -/
theorem sec_to_hms_sample_inputs_raise :
    sec_to_hms (.int 0) = .error precision_not_allowed_int ∧
    sec_to_hms (.int 59) = .error precision_not_allowed_int ∧
    sec_to_hms (.int 60) = .error precision_not_allowed_int ∧
    sec_to_hms (.int 3599) = .error precision_not_allowed_int ∧
    sec_to_hms (.int 3600) = .error precision_not_allowed_int ∧
    sec_to_hms (.int 86399) = .error precision_not_allowed_int :=
  ⟨rfl, rfl, rfl, rfl, rfl, rfl⟩

/-- Claim C2: when the wrapped callable raises an Exception instance e,
the wrapper built by push_exceptions sends exactly one notification,
whose message is str(e) and whose title is
Error in module:name after elapsed (elapsed being the textual form of
the timedelta), and the call re-raises the same exception value, so
type and message reach the caller unchanged. -/
theorem push_exceptions_error_path {α ρ : Type} (module name : String)
    (tdStr : Rat → String) (fn : α → Except PyErr ρ)
    (startTime failTime : Rat) (args : α) (e : PyErr)
    (hfn : fn args = Except.error e) (hexc : e.isExceptionInstance = true) :
    push_exceptions_ret_fn module name tdStr fn startTime failTime args =
      (Except.error e,
       [⟨e.msg, "Error in " ++ module ++ ":" ++ name ++ " after "
                  ++ tdStr (failTime - startTime)⟩]) := by
  simp [push_exceptions_ret_fn, hfn, hexc]

/-- Witness for claim C2 at a concrete input: a callable raising
ValueError with text boom, elapsed one second. -/
theorem push_exceptions_error_path_witness :
    push_exceptions_ret_fn "mod" "boom_fn" (fun _ => "0:00:01")
        (fun _ : Unit => (Except.error ⟨"ValueError", "boom", true⟩ : Except PyErr Nat))
        0 1 () =
      (Except.error ⟨"ValueError", "boom", true⟩,
       [⟨"boom", "Error in mod:boom_fn after 0:00:01"⟩]) := by
  have h := push_exceptions_error_path "mod" "boom_fn" (fun _ => "0:00:01")
      (fun _ : Unit => (Except.error ⟨"ValueError", "boom", true⟩ : Except PyErr Nat))
      0 1 () ⟨"ValueError", "boom", true⟩ rfl rfl
  exact h

/-- Claim C3: when the wrapped callable returns normally, the wrapper
built by push_exceptions returns the same result and sends no
notification. -/
theorem push_exceptions_success_path {α ρ : Type} (module name : String)
    (tdStr : Rat → String) (fn : α → Except PyErr ρ)
    (startTime failTime : Rat) (args : α) (r : ρ)
    (hfn : fn args = Except.ok r) :
    push_exceptions_ret_fn module name tdStr fn startTime failTime args =
      (Except.ok r, []) := by
  simp [push_exceptions_ret_fn, hfn]

/-- Witness for claim C3 at a concrete input: a callable returning 42. -/
theorem push_exceptions_success_path_witness :
    push_exceptions_ret_fn "mod" "ok_fn" (fun _ => "0:00:01")
        (fun _ : Unit => (Except.ok 42 : Except PyErr Nat)) 0 1 () =
      (Except.ok 42, []) := by
  have h := push_exceptions_success_path "mod" "ok_fn" (fun _ => "0:00:01")
      (fun _ : Unit => (Except.ok 42 : Except PyErr Nat)) 0 1 () 42 rfl
  exact h

/-- Claim C7: get_status_message classifies the outcome as failed
exactly when the captured error text is non-empty, in which case the
message is that error text, and as succeeded otherwise, with the
captured output text as the message. The function takes only the two
captured texts, so the classification cannot depend on whether the
body raised. -/
theorem get_status_message_content_based (out err : String) :
    ((get_status_message out err).1 = "failed" ↔ err ≠ "") ∧
    (get_status_message out err).2 = (if err ≠ "" then err else out) ∧
    (get_status_message out err).1 = (if err ≠ "" then "failed" else "succeeded") := by
  by_cases h : err = "" <;> simp [get_status_message, h]

/-- Witness for claim C7 at concrete captured texts. -/
theorem get_status_message_content_based_witness :
    ((get_status_message "hello" "oops").1 = "failed" ↔ "oops" ≠ "") ∧
    (get_status_message "hello" "oops").2 = (if "oops" ≠ "" then "oops" else "hello") ∧
    (get_status_message "hello" "oops").1 =
      (if "oops" ≠ "" then "failed" else "succeeded") :=
  get_status_message_content_based "hello" "oops"

/-- Claim C10: with nothing written to either captured stream, the
classification is succeeded and the reported message is the empty
string. -/
theorem get_status_message_empty_empty :
    get_status_message "" "" = ("succeeded", "") := by
  simp [get_status_message]

/-- Applied to a float, sec_to_hms raises: conversion type d is
rejected for floats, and the elapsed time handed to it by
PushContext.__exit__ is a float. -/
theorem sec_to_hms_float_raises (q : Rat) :
    sec_to_hms (.float q) = .error unknown_format_code_d_float := rfl

/-- The exit body always ends in the error branch: it restores the two
saved streams, writes the classified message to the saved error stream
when the status is failed and to the saved output stream otherwise,
and then raises while formatting the notification title. -/
theorem pushContext_exit_eq (ctx : PushContext) (now : Rat) (w : SysState) :
    pushContext_exit ctx now w =
      (let w1 : SysState := { w with stdout := ctx.old_stdout, stderr := ctx.old_stderr }
       let sm := get_status_message (w.contents ctx.my_stdout) (w.contents ctx.my_stderr)
       (if sm.1 = "failed" then writeStream w1 ctx.old_stderr sm.2
        else writeStream w1 ctx.old_stdout sm.2,
        some unknown_format_code_d_float)) := rfl

/-- Claim C4: the claim states that the wrapper built by push_success
returns the result of a normally completing fn and sends one Success!
notification. Evaluating the wrapper at a callable that returns 42
shows otherwise: for every recursion bound the call has produced no
result, has applied fn zero times, and has sent no notification — the
wrapper recurses into itself without limit. -/
theorem push_success_concrete_invocation_diverges (fuel : Nat) :
    push_success_ret_fn "mod" "const_fn" (fun _ => "0:00:00")
        (fun _ : Unit => (Except.ok 42 : Except PyErr Nat)) 0 0 () fuel
      = (none, 0, []) := by
  induction fuel with
  | zero => rfl
  | succ n ih => simp [push_success_ret_fn, ih]

/-- Claim C5: the wrapper built by push_success invokes itself instead
of the wrapped callable, so whatever the callable, the arguments and
the recursion bound, the call yields no result, never applies fn and
sends nothing. -/
theorem push_success_wrapper_diverges {α ρ : Type} (module name : String)
    (tdStr : Rat → String) (fn : α → Except PyErr ρ)
    (startTime endTime : Rat) (args : α) (fuel : Nat) :
    push_success_ret_fn module name tdStr fn startTime endTime args fuel
      = (none, 0, []) := by
  induction fuel with
  | zero => rfl
  | succ n ih => simp [push_success_ret_fn, ih]

/-- Claim C6: the claim states that every exit path of a
with PushContext() block restores the saved streams before reporting
and lets a body exception propagate. The with statement in fact fails
at entry: the protocol calls __enter__ with the manager as its only
positional argument while the source declares the two parameters self
and block_label, so TypeError is raised, the body never runs, and no
stream is ever redirected or restored; moreover the protocol calls
__exit__ with four positional arguments while the source declares only
self, so the restore logic in __exit__ could not be reached on any
with-managed exit path either. -/
theorem pushContext_with_enter_type_error
    (body : SysState → SysState × Option PyErr)
    (tEnter tExit : Rat) (w : SysState) :
    pushContext_with body tEnter tExit w
      = (w, some (missing_arg_type_error "__enter__" "block_label"), false) ∧
    bind_exit_args ["mgr", "excType", "excValue", "tb"]
      = .error (takes_n_type_error "__exit__" 1 4) :=
  ⟨rfl, rfl⟩

/-- Claim C8: the body of PushContext.__exit__ first restores the saved
output and error streams and only then writes the classified message
back, onto the restored error stream when the status is failed and onto
the restored output stream when it is succeeded; every other stream
keeps its content. -/
theorem pushContext_exit_restores_then_writes
    (ctx : PushContext) (now : Rat) (w : SysState) :
    (pushContext_exit ctx now w).1.stdout = ctx.old_stdout ∧
    (pushContext_exit ctx now w).1.stderr = ctx.old_stderr ∧
    (pushContext_exit ctx now w).1.contents = fun x =>
      if x = (if (get_status_message (w.contents ctx.my_stdout)
                    (w.contents ctx.my_stderr)).1 = "failed"
              then ctx.old_stderr else ctx.old_stdout)
      then w.contents x
             ++ (get_status_message (w.contents ctx.my_stdout)
                   (w.contents ctx.my_stderr)).2
      else w.contents x := by
  rw [pushContext_exit_eq]
  by_cases hf : (get_status_message (w.contents ctx.my_stdout)
      (w.contents ctx.my_stderr)).1 = "failed" <;>
    simp [hf, writeStream]

/-- Claim C9: the claim states that scope exit sends exactly one
notification whose title renders the elapsed time with sec_to_hms. The
exit body instead raises before reaching send_message: the elapsed
time is a float and sec_to_hms rejects it (as it rejects every input),
so the set of sent notifications is unchanged and __exit__ propagates
the ValueError. -/
theorem pushContext_exit_sends_no_notification
    (ctx : PushContext) (now : Rat) (w : SysState) :
    (pushContext_exit ctx now w).1.sent = w.sent ∧
    (pushContext_exit ctx now w).2 = some unknown_format_code_d_float := by
  rw [pushContext_exit_eq]
  by_cases hf : (get_status_message (w.contents ctx.my_stdout)
      (w.contents ctx.my_stderr)).1 = "failed" <;>
    simp [hf, writeStream]

end Pushwrappers
